import Mathlib

/-!
Shallow embedding of `qualibration_libs/plotting/standard_plotter.py`.

The module declares three pydantic configuration models (`TraceConfig`,
`LayoutConfig`, `PlotConfig`) and two figure builders
(`create_plotly_figure`, `create_matplotlib_figure`).  Datasets are
labelled collections indexed by a qubit coordinate; after selecting a
qubit they behave as a dictionary from field name to a one-dimensional
value array.  We model a per-qubit slice as an association list from
field name to values, and a dataset as an association list from qubit id
to slice (Python dicts are modelled as association lists compared
structurally; pydantic model equality is field-wise value equality,
matching the derived `DecidableEq`).  Python exceptions (`KeyError` on a
missing dictionary key, `TypeError` on a `None` key) are modelled with
`Except String`.
-/

/-- Literal type of `TraceConfig.plot_type`: one of scatter, heatmap, line. -/
inductive PlotType where
  | scatter
  | heatmap
  | line
deriving DecidableEq, Repr

/-- Values of a one-dimensional data variable (`.values` of a selected field). -/
abbrev Val := List Int

/-- Per-qubit slice of a dataset: dictionary from field name to values. -/
abbrev Slice := List (String × Val)

/-- Dataset indexed by the qubit coordinate: qubit id to per-qubit slice. -/
abbrev Dataset := List (String × Slice)

/-- Embeds `ds.sel(qubit=q)`: select the per-qubit slice of a dataset. -/
def Dataset.sel (ds : Dataset) (q : String) : Slice :=
  (ds.lookup q).getD []

/-- Embeds `TraceConfig` (pydantic model, lines 16-26 of the source). -/
structure TraceConfig where
  plot_type : PlotType
  x_source : String
  y_source : String
  z_source : Option String := none
  name : String
  mode : Option String := some "lines+markers"
  style : List (String × String) := []
  hover_template : Option String := none
  custom_data_sources : List String := []
  visible : Bool := true
deriving DecidableEq, Repr

/-- Embeds `LayoutConfig` (lines 28-32). -/
structure LayoutConfig where
  title : String
  x_axis_title : String
  y_axis_title : String
  legend : List (String × String) := []
deriving DecidableEq, Repr

/-- Embeds `PlotConfig` (lines 34-37). -/
structure PlotConfig where
  layout : LayoutConfig
  traces : List TraceConfig
  fit_traces : List TraceConfig := []
deriving DecidableEq, Repr

/-- Modelled from the spec: the external grid layout provider
(`PlotlyQubitGrid` / `QubitGrid` from `qualibration_libs.plotting.grids`,
not part of the file under study) exposes `n_rows`, `n_cols` and the
per-panel name mappings in row-major iteration order; `name_dicts` holds,
for each panel in that order, the qubit id (`list(nd.values())[0]`). -/
structure QubitGrid where
  n_rows : Nat
  n_cols : Nat
  name_dicts : List String
deriving DecidableEq, Repr

/-- Drawable primitive added to the interactive figure: a `go.Heatmap`
(`isHeatmap = true`, fields `x`,`y`,`z`, style spread as native options) or
a `go.Scatter` (`isHeatmap = false`, fields `x`,`y`, `mode`, `line`), plus
the common `trace_props` (lines 102-108) and its subplot position. -/
structure Primitive where
  isHeatmap : Bool
  x : Val
  y : Val
  z : Option Val := none
  mode : Option String := none
  line : List (String × String) := []
  styleSpread : List (String × String) := []
  name : String
  hovertemplate : Option String := none
  customdata : Option (List Val) := none
  legendgroup : String
  showlegend : Bool
  row : Nat
  col : Nat
deriving DecidableEq, Repr

/-- Interactive figure: the added primitives plus the layout set by
`make_subplots` and `fig.update_layout` / `update_xaxes` / `update_yaxes`.
The empty `go.Figure()` is the default value. -/
structure Figure where
  primitives : List Primitive := []
  subplot_titles : List String := []
  axis_titles : List (Nat × Nat × String × String) := []
  title_text : Option String := none
  legend : List (String × String) := []
  height : Option Nat := none
  width : Option Nat := none
deriving DecidableEq, Repr

/-- Embeds lines 91-93: the required data sources of a trace are
`x_source`, `y_source`, and `z_source` when the latter is truthy
(`if trace_config.z_source:` is false for `None` and for the empty string). -/
def requiredSources (tc : TraceConfig) : List String :=
  [tc.x_source, tc.y_source] ++
    (match tc.z_source with
     | some z => if z = "" then [] else [z]
     | none => [])

/-- Embeds line 98: gather `ds_source[src].values` for each custom data
source; a missing key raises `KeyError` (the presence check on lines 91-94
does not cover custom data sources). -/
def gatherCustom (s : Slice) : List String → Except String (List Val)
  | [] => .ok []
  | k :: ks =>
    match s.lookup k with
    | none => .error ("KeyError: " ++ k)
    | some v =>
      match gatherCustom s ks with
      | .error e => .error e
      | .ok vs => .ok (v :: vs)

/-- Embeds lines 102-126: build the drawable primitive for a trace from the
resolved slice `s`, cell index `i` (row-major) and the gathered custom data.
A heatmap indexes the slice at `z_source` directly, so a `None` key or a
missing key raises; for scatter/line, `x`/`y` indexing raises on a missing
key (unreachable after the required-sources check). -/
def makeTrace (i ncols : Nat) (s : Slice) (tc : TraceConfig)
    (cd : Option (List Val)) : Except String Primitive :=
  let row := i / ncols + 1
  let col := i % ncols + 1
  match tc.plot_type with
  | .heatmap =>
    match tc.z_source with
    | none => .error "TypeError: unhashable key None"
    | some zk =>
      match s.lookup tc.x_source, s.lookup tc.y_source, s.lookup zk with
      | some xv, some yv, some zv =>
        .ok { isHeatmap := true, x := xv, y := yv, z := some zv,
              styleSpread := tc.style, name := tc.name,
              hovertemplate := tc.hover_template, customdata := cd,
              legendgroup := tc.name, showlegend := i == 0,
              row := row, col := col }
      | _, _, _ => .error "KeyError"
  | _ =>
    match s.lookup tc.x_source, s.lookup tc.y_source with
    | some xv, some yv =>
      .ok { isHeatmap := false, x := xv, y := yv, mode := tc.mode,
            line := tc.style, name := tc.name,
            hovertemplate := tc.hover_template, customdata := cd,
            legendgroup := tc.name, showlegend := i == 0,
            row := row, col := col }
    | _, _ => .error "KeyError"

/-- Embeds the body of the per-trace loop (lines 80-126) for one trace:
skip when not visible; classify the trace as a fit trace by value-equality
membership in `config.fit_traces` (Python `in` on pydantic models compares
field values); skip when the resolved source slice is absent; skip when a
required source is missing; otherwise gather custom data (which may raise)
and build the primitive.  Returns `ok none` for a skip. -/
def processTrace (cfg : PlotConfig) (i ncols : Nat) (qraw : Slice)
    (qfit : Option Slice) (tc : TraceConfig) :
    Except String (Option Primitive) :=
  if !tc.visible then .ok none
  else
    match (if tc ∈ cfg.fit_traces then qfit else some qraw) with
    | none => .ok none
    | some s =>
      if (requiredSources tc).all (fun k => (s.lookup k).isSome) then
        match tc.custom_data_sources with
        | [] =>
          match makeTrace i ncols s tc none with
          | .error e => .error e
          | .ok p => .ok (some p)
        | k :: ks =>
          match gatherCustom s (k :: ks) with
          | .error e => .error e
          | .ok cd =>
            match makeTrace i ncols s tc (some cd) with
            | .error e => .error e
            | .ok p => .ok (some p)
      else .ok none

/-- Runs the per-trace loop over a list of traces for one grid cell,
collecting the primitives in order; an exception aborts the whole build. -/
def processTraces (cfg : PlotConfig) (i ncols : Nat) (qraw : Slice)
    (qfit : Option Slice) : List TraceConfig → Except String (List Primitive)
  | [] => .ok []
  | tc :: rest =>
    match processTrace cfg i ncols qraw qfit tc with
    | .error e => .error e
    | .ok none => processTraces cfg i ncols qraw qfit rest
    | .ok (some p) =>
      match processTraces cfg i ncols qraw qfit rest with
      | .error e => .error e
      | .ok ps => .ok (p :: ps)

/-- Embeds the grid-cell loop (lines 72-126): for the cell at index `i`
select the raw and fit per-qubit slices and process
`config.traces + config.fit_traces` in that concatenated order. -/
def processCells (cfg : PlotConfig) (ncols : Nat) (raw : Dataset)
    (fit : Option Dataset) : Nat → List String → Except String (List Primitive)
  | _, [] => .ok []
  | i, qid :: rest =>
    match processTraces cfg i ncols (raw.sel qid)
        (fit.map fun d => d.sel qid) (cfg.traces ++ cfg.fit_traces) with
    | .error e => .error e
    | .ok ps =>
      match processCells cfg ncols raw fit (i + 1) rest with
      | .error e => .error e
      | .ok more => .ok (ps ++ more)

/-- Embeds lines 128-129 applied at every cell: per-subplot axis titles
`(row, col, x_axis_title, y_axis_title)` in iteration order. -/
def axisTitles (layout : LayoutConfig) (ncols : Nat) :
    Nat → List String → List (Nat × Nat × String × String)
  | _, [] => []
  | i, _ :: rest =>
    (i / ncols + 1, i % ncols + 1, layout.x_axis_title, layout.y_axis_title)
      :: axisTitles layout ncols (i + 1) rest

/-- Embeds `create_plotly_figure` (lines 40-137).  The external grid layout
provider result is taken as the `grid` argument in place of the qubit list
(the source computes it as `PlotlyQubitGrid(ds_raw, [q.grid_location ...])`).
Empty `plot_configs` yields the empty figure; otherwise only
`plot_configs[0]` is used; the final layout sets the title, legend style,
`height = 350 * n_rows` and `width = max(800, 350 * n_cols)`. -/
def create_plotly_figure (ds_raw : Dataset) (grid : QubitGrid)
    (plot_configs : List PlotConfig) (ds_fit : Option Dataset := none) :
    Except String Figure :=
  match plot_configs with
  | [] => .ok {}
  | cfg :: _ =>
    match processCells cfg grid.n_cols ds_raw ds_fit 0 grid.name_dicts with
    | .error e => .error e
    | .ok ps =>
      .ok { primitives := ps,
            subplot_titles := grid.name_dicts.map (fun q => "Qubit " ++ q),
            axis_titles := axisTitles cfg.layout grid.n_cols 0 grid.name_dicts,
            title_text := some cfg.layout.title,
            legend := cfg.layout.legend,
            height := some (350 * grid.n_rows),
            width := some (max 800 (350 * grid.n_cols)) }

/-- Series drawn on one matplotlib axes by `ax.plot`. -/
structure MplSeries where
  x : Val
  y : Val
  marker : Option String := none
  linestyle : String
  label : String
  color : Option String := none
deriving DecidableEq, Repr

/-- One matplotlib axes: its plotted series and the labels set on it. -/
structure MplAxes where
  series : List MplSeries := []
  xlabel : String := ""
  ylabel : String := ""
  title : String := ""
deriving DecidableEq, Repr

/-- Matplotlib figure: per-axes content plus figure-level decorations. -/
structure MplFigure where
  suptitle : Option String := none
  axes : List MplAxes := []
  has_legend : Bool := false
deriving DecidableEq, Repr

/-- Embeds line 177: the fixed translation table from plotly dash styles to
matplotlib linestyles. -/
def linestyle_map : List (String × String) :=
  [("solid", "-"), ("dot", ":"), ("dash", "--"),
   ("longdash", "-."), ("dashdot", "-.")]

/-- Embeds lines 163-170: one raw trace on one axes.  Drawn when visible and
both `x_source` and `y_source` are present in the raw slice, with marker
`"."`, linestyle `"-"` and label equal to the trace name only on the first
axes (`i == 0`), the empty string otherwise. -/
def rawSeriesFor (i : Nat) (qraw : Slice) (tc : TraceConfig) :
    Option MplSeries :=
  if tc.visible then
    match qraw.lookup tc.x_source, qraw.lookup tc.y_source with
    | some xv, some yv =>
      some { x := xv, y := yv, marker := some ".", linestyle := "-",
             label := if i = 0 then tc.name else "" }
    | _, _ => none
  else none

/-- Embeds lines 174-186: one fit trace on one axes.  Drawn when visible and
both sources present in the fit slice, with linestyle
`linestyle_map.get(style.get("dash"), "--")` (default `"--"` for an absent
or unrecognized dash value), label as for raw traces, and color
`style.get("color", "red")`. -/
def fitSeriesFor (i : Nat) (qfit : Slice) (tc : TraceConfig) :
    Option MplSeries :=
  if tc.visible then
    match qfit.lookup tc.x_source, qfit.lookup tc.y_source with
    | some xv, some yv =>
      some { x := xv, y := yv,
             linestyle :=
               match tc.style.lookup "dash" with
               | none => "--"
               | some d => (linestyle_map.lookup d).getD "--",
             label := if i = 0 then tc.name else "",
             color := some ((tc.style.lookup "color").getD "red") }
    | _, _ => none
  else none

/-- Embeds the per-axes body (lines 157-190): raw traces from the raw slice,
then fit traces only when the fit slice exists and is truthy (a Python
dataset is falsy when it has zero data variables), then the axis labels and
the per-axes title. -/
def mkAxes (cfg : PlotConfig) (i : Nat) (qid : String) (qraw : Slice)
    (qfit : Option Slice) : MplAxes :=
  let rawS := cfg.traces.filterMap (rawSeriesFor i qraw)
  let fitS :=
    match qfit with
    | some s => if s = [] then [] else cfg.fit_traces.filterMap (fitSeriesFor i s)
    | none => []
  { series := rawS ++ fitS,
    xlabel := cfg.layout.x_axis_title,
    ylabel := cfg.layout.y_axis_title,
    title := "Qubit " ++ qid }

/-- Runs `mkAxes` over the grid iteration order with index `i`. -/
def mkAxesList (cfg : PlotConfig) (raw : Dataset) (fit : Option Dataset) :
    Nat → List String → List MplAxes
  | _, [] => []
  | i, qid :: rest =>
    mkAxes cfg i qid (raw.sel qid) (fit.map fun d => d.sel qid)
      :: mkAxesList cfg raw fit (i + 1) rest

/-- Embeds `create_matplotlib_figure` (lines 140-196).  Empty `plot_configs`
yields a blank single-axes figure (`plt.subplots()`); otherwise only
`plot_configs[0]` is used; the shared figure legend is drawn when any trace
(raw or fit) has a truthy (non-empty) name. -/
def create_matplotlib_figure (ds_raw : Dataset) (grid : QubitGrid)
    (plot_configs : List PlotConfig) (ds_fit : Option Dataset := none) :
    MplFigure :=
  match plot_configs with
  | [] => { axes := [{}] }
  | cfg :: _ =>
    { suptitle := some cfg.layout.title,
      axes := mkAxesList cfg ds_raw ds_fit 0 grid.name_dicts,
      has_legend := (cfg.traces ++ cfg.fit_traces).any (fun t => t.name ≠ "") }

/-! ## Derived predicate and concrete example values -/

/-- Example layout used by the concrete instances below. -/
def exLayout : LayoutConfig :=
  { title := "t", x_axis_title := "xt", y_axis_title := "yt" }

/-- Example visible scatter trace reading fields `x` and `y`. -/
def exTraceT : TraceConfig :=
  { plot_type := .scatter, x_source := "x", y_source := "y", name := "T" }

/-- Example one-panel grid over the single qubit `q1`. -/
def exGrid1 : QubitGrid := { n_rows := 1, n_cols := 1, name_dicts := ["q1"] }

/-- Example raw dataset: qubit `q1` carries `x = [1]` and `y = [1]`. -/
def exRaw1 : Dataset := [("q1", [("x", [1]), ("y", [1])])]

/-- Example fit dataset: qubit `q1` carries `x = [2]` and `y = [2]`. -/
def exFit2 : Dataset := [("q1", [("x", [2]), ("y", [2])])]

/-- Configuration whose raw list and fit list both hold the value-equal
trace `exTraceT`. -/
def exCfgDup : PlotConfig :=
  { layout := exLayout, traces := [exTraceT], fit_traces := [exTraceT] }

/-- Traces whose processing can never raise: no custom data sources (line 98
indexes them without a presence check) and, for a heatmap, a truthy
`z_source` (line 114 indexes `z_source` directly, so a `None` or empty-string
key can raise). -/
def safeTrace (tc : TraceConfig) : Bool :=
  tc.custom_data_sources.isEmpty &&
    (match tc.plot_type with
     | .heatmap =>
       (match tc.z_source with
        | some z => !(z == "")
        | none => false)
     | _ => true)

/-- Visible scatter trace whose custom data source `cd` is absent from the
raw slice of `exRaw1`. -/
def exTraceCd : TraceConfig :=
  { plot_type := .scatter, x_source := "x", y_source := "y", name := "T",
    custom_data_sources := ["cd"] }

/-- Configuration holding only `exTraceCd` as a raw trace. -/
def exCfgCd : PlotConfig := { layout := exLayout, traces := [exTraceCd] }

/-- Visible scatter trace with a truthy `z_source` naming the field `zz`. -/
def exTraceZ : TraceConfig :=
  { plot_type := .scatter, x_source := "x", y_source := "y",
    z_source := some "zz", name := "T" }

/-- Configuration holding only `exTraceZ` as a raw trace. -/
def exCfgZ : PlotConfig := { layout := exLayout, traces := [exTraceZ] }

/-- Primitive emitted for `exTraceT` in the first grid cell. -/
def exPrimT : Primitive :=
  { isHeatmap := false, x := [1], y := [1], mode := some "lines+markers",
    name := "T", legendgroup := "T", showlegend := true, row := 1, col := 1 }

/-- Raw series drawn for `exTraceT` on the first axes. -/
def exSerRawT : MplSeries :=
  { x := [1], y := [1], marker := some ".", linestyle := "-", label := "T" }

/-- Fit series drawn for `exTraceT` on the second axes. -/
def exSerFitT : MplSeries :=
  { x := [1], y := [1], linestyle := "--", label := "", color := some "red" }

/-- Shared slice holding `x = [1]` and `y = [1]`. -/
def exSliceXY : Slice := [("x", [1]), ("y", [1])]

/-- Fit trace requesting the dash style `dash` and no color. -/
def exTraceDash : TraceConfig :=
  { plot_type := .line, x_source := "x", y_source := "y", name := "F",
    style := [("dash", "dash")] }

/-- Fit series drawn for `exTraceDash` on the first axes. -/
def exSerFitDash : MplSeries :=
  { x := [1], y := [1], linestyle := "--", label := "F", color := some "red" }

/-- Grid with 2 rows and 3 columns. -/
def exGrid23 : QubitGrid :=
  { n_rows := 2, n_cols := 3, name_dicts := ["a", "b", "c", "d", "e", "f"] }

/-- Configuration with no traces at all. -/
def exCfgNoTraces : PlotConfig := { layout := exLayout, traces := [] }

/-- Figure produced for `exCfgNoTraces` on the 2-by-3 grid. -/
def exFig23 : Figure :=
  { primitives := [],
    subplot_titles := ["Qubit a", "Qubit b", "Qubit c", "Qubit d", "Qubit e",
      "Qubit f"],
    axis_titles := [(1, 1, "xt", "yt"), (1, 2, "xt", "yt"), (1, 3, "xt", "yt"),
      (2, 1, "xt", "yt"), (2, 2, "xt", "yt"), (2, 3, "xt", "yt")],
    title_text := some "t",
    height := some 700,
    width := some 1050 }

/-! ## Helper lemmas shared by several claims -/

/-- Skipping: when the resolved source slice exists but some required source
is missing, the trace is skipped with no exception. -/
lemma processTrace_skip_of_missing (cfg : PlotConfig) (i ncols : Nat)
    (qraw : Slice) (qfit : Option Slice) (tc : TraceConfig) (s : Slice)
    (h1 : (if tc ∈ cfg.fit_traces then qfit else some qraw) = some s)
    (h2 : (requiredSources tc).all (fun k => (s.lookup k).isSome) = false) :
    processTrace cfg i ncols qraw qfit tc = .ok none := by
  unfold processTrace
  rw [h1]
  cases tc.visible <;> simp [h2]

/-- Skipping: a trace classified as a fit trace is skipped when there is no
fit slice. -/
lemma processTrace_mem_no_fit (cfg : PlotConfig) (i ncols : Nat)
    (qraw : Slice) (tc : TraceConfig) (h : tc ∈ cfg.fit_traces) :
    processTrace cfg i ncols qraw none tc = .ok none := by
  unfold processTrace
  rw [if_pos h]
  cases tc.visible <;> simp

/-- Independence: a trace not classified as a fit trace is processed against
the raw slice only; the configuration enters only through `fit_traces`. -/
lemma processTrace_not_mem (cfg cfg2 : PlotConfig) (i ncols : Nat)
    (qraw : Slice) (qfit qfit2 : Option Slice) (tc : TraceConfig)
    (h1 : tc ∉ cfg.fit_traces) (h2 : tc ∉ cfg2.fit_traces) :
    processTrace cfg i ncols qraw qfit tc
      = processTrace cfg2 i ncols qraw qfit2 tc := by
  unfold processTrace
  rw [if_neg h1, if_neg h2]

/-! ## Shared concrete examples -/

/-! ## C5 -/

/-- C5 (confirmed): for every input with an empty `plot_configs` list,
`create_plotly_figure` returns the empty figure and
`create_matplotlib_figure` returns a blank single-axes figure, and neither
raises, independent of the datasets and grid supplied. -/
theorem c5_empty_plot_configs (raw : Dataset) (grid : QubitGrid)
    (fit : Option Dataset) :
    create_plotly_figure raw grid [] fit = .ok {} ∧
    create_matplotlib_figure raw grid [] fit = { axes := [{}] } :=
  ⟨rfl, rfl⟩

/-! ## C9 -/

/-- C9 (confirmed): for every non-empty `plot_configs` list, both builders
honor only `plot_configs[0]`: the output is identical to the one produced
with the list truncated to its first element. -/
theorem c9_first_config_wins (raw : Dataset) (grid : QubitGrid)
    (cfg : PlotConfig) (rest : List PlotConfig) (fit : Option Dataset) :
    create_plotly_figure raw grid (cfg :: rest) fit
        = create_plotly_figure raw grid [cfg] fit ∧
    create_matplotlib_figure raw grid (cfg :: rest) fit
        = create_matplotlib_figure raw grid [cfg] fit :=
  ⟨rfl, rfl⟩

/-! ## C1 -/

/-- C1 (counterexample): the claim says a trace occurring in the raw
`traces` list is resolved against the raw per-qubit slice even when it is
value-equal to some trace in `fit_traces`.  In the code the classification
on line 84 is `trace_config in config.fit_traces`, which tests value
equality, so the raw-list occurrence of `exTraceT` is resolved against the
fit slice: both emitted primitives carry the fit values `x = [2]` although
the raw slice holds `x = [1]`. -/
theorem c1_raw_list_resolution_cex :
    (create_plotly_figure exRaw1 exGrid1 [exCfgDup] (some exFit2)).map
        (fun f => f.primitives.map (fun p => p.x)) = .ok [[2], [2]] ∧
    (exRaw1.sel "q1").lookup "x" = some [1] ∧
    (exFit2.sel "q1").lookup "x" = some [2] ∧
    exCfgDup.traces = [exTraceT] ∧
    exTraceT.visible = true :=
  ⟨rfl, rfl, rfl, rfl, rfl⟩

/-- C1 (amended): the dataset a processed trace is resolved against is
determined by value-equality membership in `fit_traces`: a trace value-equal
to some element of `fit_traces` is resolved against the fit slice (its
processing does not depend on the raw slice), and a trace not value-equal to
any fit trace is resolved against the raw slice (its processing does not
depend on the fit slice); occurrence in the raw `traces` list does not
override this. -/
theorem c1_resolution_by_value_membership (cfg : PlotConfig) (i ncols : Nat)
    (qraw qraw2 : Slice) (qfit qfit2 : Option Slice) (tc : TraceConfig) :
    (tc ∈ cfg.fit_traces →
      processTrace cfg i ncols qraw qfit tc
        = processTrace cfg i ncols qraw2 qfit tc) ∧
    (tc ∉ cfg.fit_traces →
      processTrace cfg i ncols qraw qfit tc
        = processTrace cfg i ncols qraw qfit2 tc) := by
  constructor
  · intro h
    unfold processTrace
    rw [if_pos h, if_pos h]
  · intro h
    unfold processTrace
    rw [if_neg h, if_neg h]

/-- Concrete instantiation of `c1_resolution_by_value_membership`: the trace
in `exCfgDup.fit_traces` is processed identically for two different raw
slices, and a trace not in the fit list is processed identically for two
different fit slices. -/
theorem c1_resolution_by_value_membership_witness :
    processTrace exCfgDup 0 1 [("x", [1]), ("y", [1])] (some [("x", [2]), ("y", [2])]) exTraceT
      = processTrace exCfgDup 0 1 [("x", [9]), ("y", [9])] (some [("x", [2]), ("y", [2])]) exTraceT ∧
    processTrace { layout := exLayout, traces := [exTraceT] } 0 1
        [("x", [1]), ("y", [1])] (some [("x", [2]), ("y", [2])]) exTraceT
      = processTrace { layout := exLayout, traces := [exTraceT] } 0 1
        [("x", [1]), ("y", [1])] none exTraceT :=
  ⟨(c1_resolution_by_value_membership exCfgDup 0 1
      [("x", [1]), ("y", [1])] [("x", [9]), ("y", [9])]
      (some [("x", [2]), ("y", [2])]) (some [("x", [2]), ("y", [2])]) exTraceT).1
      (by decide),
   (c1_resolution_by_value_membership { layout := exLayout, traces := [exTraceT] } 0 1
      [("x", [1]), ("y", [1])] [("x", [1]), ("y", [1])]
      (some [("x", [2]), ("y", [2])]) none exTraceT).2
      (by decide)⟩

/-! ## C2 -/

/-- Unfolding of `create_plotly_figure` on a non-empty configuration list
once the cell loop result is known. -/
lemma create_plotly_figure_ok (raw : Dataset) (grid : QubitGrid)
    (cfg : PlotConfig) (rest : List PlotConfig) (fit : Option Dataset)
    (ps : List Primitive)
    (hps : processCells cfg grid.n_cols raw fit 0 grid.name_dicts = .ok ps) :
    create_plotly_figure raw grid (cfg :: rest) fit =
      .ok { primitives := ps,
            subplot_titles := grid.name_dicts.map (fun q => "Qubit " ++ q),
            axis_titles := axisTitles cfg.layout grid.n_cols 0 grid.name_dicts,
            title_text := some cfg.layout.title,
            legend := cfg.layout.legend,
            height := some (350 * grid.n_rows),
            width := some (max 800 (350 * grid.n_cols)) } := by
  simp only [create_plotly_figure, hps]

/-- Unpacking the required-sources check: it guarantees presence of
`x_source`, of `y_source`, and of a truthy `z_source`. -/
lemma requiredSources_all_unpack (tc : TraceConfig) (s : Slice)
    (h : ((requiredSources tc).all (fun k => (s.lookup k).isSome)) = true) :
    (s.lookup tc.x_source).isSome = true ∧
    (s.lookup tc.y_source).isSome = true ∧
    (∀ z, tc.z_source = some z → z ≠ "" → (s.lookup z).isSome = true) := by
  unfold requiredSources at h
  simp only [List.all_append, List.all_cons, List.all_nil, Bool.and_eq_true,
    Bool.and_true] at h
  refine ⟨h.1.1, h.1.2, ?_⟩
  intro z hz hz2
  rw [hz] at h
  simp only [if_neg hz2] at h
  simpa using h.2

/-- Building the primitive succeeds when the required fields are present
and, for a heatmap, the `z_source` key is truthy and present. -/
lemma makeTrace_ok (i ncols : Nat) (s : Slice) (tc : TraceConfig)
    (cd : Option (List Val))
    (hx : (s.lookup tc.x_source).isSome = true)
    (hy : (s.lookup tc.y_source).isSome = true)
    (hz : tc.plot_type = .heatmap →
      ∃ z, tc.z_source = some z ∧ (s.lookup z).isSome = true) :
    ∃ p, makeTrace i ncols s tc cd = .ok p := by
  obtain ⟨xv, hxv⟩ := Option.isSome_iff_exists.mp hx
  obtain ⟨yv, hyv⟩ := Option.isSome_iff_exists.mp hy
  cases htp : tc.plot_type with
  | heatmap =>
    obtain ⟨z, hzs, hzp⟩ := hz htp
    obtain ⟨zv, hzv⟩ := Option.isSome_iff_exists.mp hzp
    simp only [makeTrace, htp, hzs, hxv, hyv, hzv]
    exact ⟨_, rfl⟩
  | scatter =>
    simp only [makeTrace, htp, hxv, hyv]
    exact ⟨_, rfl⟩
  | line =>
    simp only [makeTrace, htp, hxv, hyv]
    exact ⟨_, rfl⟩

/-- Processing a safe trace never raises: the result is a skip or a
primitive. -/
lemma processTrace_ok_of_safe (cfg : PlotConfig) (i ncols : Nat)
    (qraw : Slice) (qfit : Option Slice) (tc : TraceConfig)
    (h : safeTrace tc = true) :
    ∃ r, processTrace cfg i ncols qraw qfit tc = .ok r := by
  unfold safeTrace at h
  simp only [Bool.and_eq_true, List.isEmpty_iff] at h
  unfold processTrace
  cases hv : tc.visible with
  | false => exact ⟨none, by simp⟩
  | true =>
    simp only [hv, Bool.not_true]
    cases hsrc : (if tc ∈ cfg.fit_traces then qfit else some qraw) with
    | none => exact ⟨none, by simp⟩
    | some s =>
      cases hall : ((requiredSources tc).all (fun k => (s.lookup k).isSome)) with
      | false => exact ⟨none, by simp [hall]⟩
      | true =>
        obtain ⟨hx, hy, hzp⟩ := requiredSources_all_unpack tc s hall
        have hzc : tc.plot_type = .heatmap →
            ∃ z, tc.z_source = some z ∧ (s.lookup z).isSome = true := by
          intro htp
          rw [htp] at h
          cases hzs : tc.z_source with
          | none => rw [hzs] at h; exact absurd h.2 (by simp)
          | some z =>
            rw [hzs] at h
            have hz2 : z ≠ "" := by
              intro hc
              rw [hc] at h
              exact absurd h.2 (by simp)
            exact ⟨z, rfl, hzp z hzs hz2⟩
        obtain ⟨p, hp⟩ := makeTrace_ok i ncols s tc none hx hy hzc
        refine ⟨some p, ?_⟩
        simp [hall, h.1, hp]

/-- Running the trace loop over safe traces never raises. -/
lemma processTraces_ok_of_safe (cfg : PlotConfig) (i ncols : Nat)
    (qraw : Slice) (qfit : Option Slice) :
    ∀ l : List TraceConfig, l.all safeTrace = true →
      ∃ ps, processTraces cfg i ncols qraw qfit l = .ok ps := by
  intro l
  induction l with
  | nil => intro _; exact ⟨[], rfl⟩
  | cons tc rest ih =>
    intro h
    simp only [List.all_cons, Bool.and_eq_true] at h
    obtain ⟨r, hr⟩ := processTrace_ok_of_safe cfg i ncols qraw qfit tc h.1
    obtain ⟨ps, hps⟩ := ih h.2
    cases r with
    | none => exact ⟨ps, by unfold processTraces; rw [hr, hps]⟩
    | some p => exact ⟨p :: ps, by unfold processTraces; rw [hr, hps]⟩

/-- Running the cell loop over safe traces never raises. -/
lemma processCells_ok_of_safe (cfg : PlotConfig) (ncols : Nat)
    (raw : Dataset) (fit : Option Dataset)
    (h : (cfg.traces ++ cfg.fit_traces).all safeTrace = true) :
    ∀ (qids : List String) (i : Nat),
      ∃ ps, processCells cfg ncols raw fit i qids = .ok ps := by
  intro qids
  induction qids with
  | nil => intro i; exact ⟨[], rfl⟩
  | cons qid rest ih =>
    intro i
    obtain ⟨ps, hps⟩ := processTraces_ok_of_safe cfg i ncols (raw.sel qid)
      (fit.map fun d => d.sel qid) (cfg.traces ++ cfg.fit_traces) h
    obtain ⟨more, hmore⟩ := ih (i + 1)
    exact ⟨ps ++ more, by unfold processCells; rw [hps, hmore]⟩

/-- C2 (counterexample): the claim says a field named in
`custom_data_sources` that is missing from the slice causes the trace to be
skipped and the builder still returns a complete figure.  In the code the
presence check on lines 91-94 covers only `x_source`/`y_source`/`z_source`;
line 98 then indexes each custom data source directly, so the missing field
`cd` raises a `KeyError` and no figure is returned, although `x` and `y`
are present and the trace would otherwise draw. -/
theorem c2_custom_data_raises_cex :
    create_plotly_figure exRaw1 exGrid1 [exCfgCd] none = .error "KeyError: cd" ∧
    (exRaw1.sel "q1").lookup "x" = some [1] ∧
    (exRaw1.sel "q1").lookup "y" = some [1] ∧
    (exRaw1.sel "q1").lookup "cd" = none ∧
    exTraceCd.visible = true :=
  ⟨rfl, rfl, rfl, rfl, rfl⟩

/-- C2 (amended): a required field (`x_source`, `y_source`, or a truthy
`z_source`) absent from the resolved slice causes the trace to be skipped
for that qubit with no exception; but a field named in
`custom_data_sources` that is missing from the slice raises a lookup error
instead of skipping.  When every configured trace is safe (no custom data
sources, and heatmaps carry a truthy `z_source`), the builder always
returns a complete figure. -/
theorem c2_missing_field_handling :
    (∀ (cfg : PlotConfig) (i ncols : Nat) (qraw : Slice) (qfit : Option Slice)
       (tc : TraceConfig) (s : Slice),
       (if tc ∈ cfg.fit_traces then qfit else some qraw) = some s →
       ((requiredSources tc).all (fun k => (s.lookup k).isSome)) = false →
       processTrace cfg i ncols qraw qfit tc = .ok none) ∧
    (∀ (raw : Dataset) (grid : QubitGrid) (cfg : PlotConfig)
       (rest : List PlotConfig) (fit : Option Dataset),
       (cfg.traces ++ cfg.fit_traces).all safeTrace = true →
       ∃ fig, create_plotly_figure raw grid (cfg :: rest) fit = .ok fig) := by
  constructor
  · intro cfg i ncols qraw qfit tc s h1 h2
    exact processTrace_skip_of_missing cfg i ncols qraw qfit tc s h1 h2
  · intro raw grid cfg rest fit h
    obtain ⟨ps, hps⟩ := processCells_ok_of_safe cfg grid.n_cols raw fit h
      grid.name_dicts 0
    exact ⟨_, create_plotly_figure_ok raw grid cfg rest fit ps hps⟩

/-- Concrete instantiation of `c2_missing_field_handling`: a visible trace
whose `y_source` is absent is skipped with no exception, and a
configuration of safe traces yields a complete figure. -/
theorem c2_missing_field_handling_witness :
    processTrace exCfgCd 0 1 [("x", [1])] none exTraceT = .ok none ∧
    ∃ fig, create_plotly_figure exRaw1 exGrid1 [exCfgDup] (some exFit2) = .ok fig :=
  ⟨c2_missing_field_handling.1 exCfgCd 0 1 [("x", [1])] none exTraceT
      [("x", [1])] (by decide) (by decide),
   c2_missing_field_handling.2 exRaw1 exGrid1 exCfgDup [] (some exFit2)
      (by decide)⟩

/-! ## C3 -/

/-- Drawing: a visible non-heatmap trace whose resolved slice passes the
required-sources check and which has no custom data sources yields a
scatter primitive. -/
lemma processTrace_draws_nonheatmap (cfg : PlotConfig) (i ncols : Nat)
    (qraw : Slice) (qfit : Option Slice) (tc : TraceConfig) (s : Slice)
    (hv : tc.visible = true) (hm : tc.plot_type ≠ .heatmap)
    (hsrc : (if tc ∈ cfg.fit_traces then qfit else some qraw) = some s)
    (hall : ((requiredSources tc).all (fun k => (s.lookup k).isSome)) = true)
    (hcd : tc.custom_data_sources = []) :
    ∃ p, processTrace cfg i ncols qraw qfit tc = .ok (some p) ∧
      p.isHeatmap = false ∧
      s.lookup tc.x_source = some p.x ∧ s.lookup tc.y_source = some p.y := by
  obtain ⟨hx, hy, _⟩ := requiredSources_all_unpack tc s hall
  obtain ⟨xv, hxv⟩ := Option.isSome_iff_exists.mp hx
  obtain ⟨yv, hyv⟩ := Option.isSome_iff_exists.mp hy
  have hmk : ∃ p, makeTrace i ncols s tc none = .ok p ∧
      p.isHeatmap = false ∧ p.x = xv ∧ p.y = yv := by
    cases htp : tc.plot_type with
    | heatmap => exact absurd htp hm
    | scatter =>
      simp only [makeTrace, htp, hxv, hyv]
      exact ⟨_, rfl, rfl, rfl, rfl⟩
    | line =>
      simp only [makeTrace, htp, hxv, hyv]
      exact ⟨_, rfl, rfl, rfl, rfl⟩
  obtain ⟨p, hp, hh, hpx, hpy⟩ := hmk
  refine ⟨p, ?_, hh, by rw [hxv, hpx], by rw [hyv, hpy]⟩
  simp [processTrace, hv, hsrc, hall, hcd, hp]

/-- C3 (counterexample): the claim says a visible scatter trace whose
`x_source` and `y_source` are present is drawn even if its `z_source` is
set but absent from the slice.  In the code line 92 adds `z_source` to the
required sources whenever it is truthy, regardless of `plot_type`, so the
scatter trace `exTraceZ` is skipped: the figure holds no primitive although
`x` and `y` are present in the raw slice. -/
theorem c3_scatter_z_required_cex :
    (create_plotly_figure exRaw1 exGrid1 [exCfgZ] none).map
        (fun f => f.primitives) = .ok [] ∧
    exTraceZ.plot_type = PlotType.scatter ∧
    exTraceZ.visible = true ∧
    (exRaw1.sel "q1").lookup "x" = some [1] ∧
    (exRaw1.sel "q1").lookup "y" = some [1] ∧
    (exRaw1.sel "q1").lookup "zz" = none :=
  ⟨rfl, rfl, rfl, rfl, rfl, rfl⟩

/-- C3 (amended): presence of `z_source` in the resolved slice is required
for every trace whose `z_source` is truthy (set and non-empty), regardless
of `plot_type`: such a trace is skipped when the field is absent, and a
visible scatter or line trace is drawn exactly when the whole
required-sources check (which then includes `z_source`) passes. -/
theorem c3_z_required_when_truthy :
    (∀ (cfg : PlotConfig) (i ncols : Nat) (qraw : Slice) (qfit : Option Slice)
       (tc : TraceConfig) (z : String) (s : Slice),
       tc.z_source = some z → z ≠ "" →
       (if tc ∈ cfg.fit_traces then qfit else some qraw) = some s →
       s.lookup z = none →
       processTrace cfg i ncols qraw qfit tc = .ok none) ∧
    (∀ (cfg : PlotConfig) (i ncols : Nat) (qraw : Slice) (qfit : Option Slice)
       (tc : TraceConfig) (s : Slice),
       tc.visible = true → tc.plot_type ≠ .heatmap →
       (if tc ∈ cfg.fit_traces then qfit else some qraw) = some s →
       ((requiredSources tc).all (fun k => (s.lookup k).isSome)) = true →
       tc.custom_data_sources = [] →
       ∃ p, processTrace cfg i ncols qraw qfit tc = .ok (some p) ∧
         p.isHeatmap = false) := by
  constructor
  · intro cfg i ncols qraw qfit tc z s hz hz2 hsrc hnone
    cases hall : ((requiredSources tc).all (fun k => (s.lookup k).isSome)) with
    | true =>
      obtain ⟨_, _, hzp⟩ := requiredSources_all_unpack tc s hall
      have := hzp z hz hz2
      rw [hnone] at this
      exact absurd this (by simp)
    | false => exact processTrace_skip_of_missing cfg i ncols qraw qfit tc s hsrc hall
  · intro cfg i ncols qraw qfit tc s hv hm hsrc hall hcd
    obtain ⟨p, hp, hh, _, _⟩ :=
      processTrace_draws_nonheatmap cfg i ncols qraw qfit tc s hv hm hsrc hall hcd
    exact ⟨p, hp, hh⟩

/-- Concrete instantiation of `c3_z_required_when_truthy`: the scatter trace
with truthy `z_source` `zz` absent from the slice is skipped, and the plain
scatter trace with all required fields present is drawn. -/
theorem c3_z_required_when_truthy_witness :
    processTrace exCfgZ 0 1 [("x", [1]), ("y", [1])] none exTraceZ = .ok none ∧
    ∃ p, processTrace exCfgCd 0 1 [("x", [1]), ("y", [1])] none exTraceT
        = .ok (some p) ∧ p.isHeatmap = false :=
  ⟨c3_z_required_when_truthy.1 exCfgZ 0 1 [("x", [1]), ("y", [1])] none
      exTraceZ "zz" [("x", [1]), ("y", [1])] (by decide) (by decide)
      (by decide) (by decide),
   c3_z_required_when_truthy.2 exCfgCd 0 1 [("x", [1]), ("y", [1])] none
      exTraceT [("x", [1]), ("y", [1])] (by decide) (by decide) (by decide)
      (by decide) (by decide)⟩

/-! ## C4 -/

/-- Filtering a list down to the elements not members of a superset yields
the empty list. -/
lemma filter_not_mem_nil (l m : List TraceConfig) (h : ∀ x ∈ l, x ∈ m) :
    l.filter (fun t => !decide (t ∈ m)) = [] := by
  refine List.filter_eq_nil_iff.mpr ?_
  intro a ha
  simp [h a ha]

/-- With no fit dataset, processing a trace list is the same as processing,
under a configuration with an empty fit list, only the traces that are not
value-equal to a fit trace. -/
lemma processTraces_drop_fit (cfg cfgF : PlotConfig) (i ncols : Nat)
    (qraw : Slice) (hF : cfgF.fit_traces = []) :
    ∀ l : List TraceConfig,
      processTraces cfg i ncols qraw none l
        = processTraces cfgF i ncols qraw none
            (l.filter (fun t => !decide (t ∈ cfg.fit_traces))) := by
  intro l
  induction l with
  | nil => rfl
  | cons tc rest ih =>
    by_cases hm : tc ∈ cfg.fit_traces
    · have hfil : (tc :: rest).filter (fun t => !decide (t ∈ cfg.fit_traces))
          = rest.filter (fun t => !decide (t ∈ cfg.fit_traces)) := by
        simp [hm]
      rw [hfil, ← ih]
      simp only [processTraces, processTrace_mem_no_fit cfg i ncols qraw tc hm]
    · have hm2 : tc ∉ cfgF.fit_traces := by rw [hF]; simp
      have hpt : processTrace cfg i ncols qraw none tc
          = processTrace cfgF i ncols qraw none tc :=
        processTrace_not_mem cfg cfgF i ncols qraw none none tc hm hm2
      have hfil : (tc :: rest).filter (fun t => !decide (t ∈ cfg.fit_traces))
          = tc :: rest.filter (fun t => !decide (t ∈ cfg.fit_traces)) := by
        simp [hm]
      rw [hfil]
      cases hr : processTrace cfgF i ncols qraw none tc with
      | error e => simp only [processTraces, hpt, hr]
      | ok r =>
        cases r with
        | none => simp only [processTraces, hpt, hr]; exact ih
        | some p => simp only [processTraces, hpt, hr, ih]

/-- With no fit dataset, the cell loop is the same as the cell loop of the
configuration with the fit list emptied and the value-equal raw traces
filtered out. -/
lemma processCells_drop_fit (cfg : PlotConfig) (ncols : Nat) (raw : Dataset) :
    ∀ (qids : List String) (i : Nat),
      processCells cfg ncols raw none i qids
        = processCells
            { cfg with
              traces := cfg.traces.filter (fun t => !decide (t ∈ cfg.fit_traces)),
              fit_traces := [] } ncols raw none i qids := by
  intro qids
  induction qids with
  | nil => intro i; rfl
  | cons qid rest ih =>
    intro i
    have htr : processTraces cfg i ncols (raw.sel qid) none
          (cfg.traces ++ cfg.fit_traces)
        = processTraces
            { cfg with
              traces := cfg.traces.filter (fun t => !decide (t ∈ cfg.fit_traces)),
              fit_traces := [] } i ncols (raw.sel qid) none
            (cfg.traces.filter (fun t => !decide (t ∈ cfg.fit_traces)) ++ []) := by
      rw [processTraces_drop_fit cfg
        { cfg with
          traces := cfg.traces.filter (fun t => !decide (t ∈ cfg.fit_traces)),
          fit_traces := [] } i ncols (raw.sel qid) rfl
        (cfg.traces ++ cfg.fit_traces)]
      rw [List.filter_append]
      rw [filter_not_mem_nil cfg.fit_traces cfg.fit_traces (fun x hx => hx)]
    simp only [processCells, Option.map_none']
    rw [htr, ih (i + 1)]

/-- Trace list of `mkAxesList` is unaffected by the fit list when there is
no fit dataset. -/
lemma mkAxesList_no_fit (cfg : PlotConfig) (raw : Dataset) :
    ∀ (qids : List String) (i : Nat),
      mkAxesList cfg raw none i qids
        = mkAxesList { cfg with fit_traces := [] } raw none i qids := by
  intro qids
  induction qids with
  | nil => intro i; rfl
  | cons qid rest ih =>
    intro i
    simp only [mkAxesList, mkAxes, Option.map_none']
    rw [ih (i + 1)]

/-- C4 (counterexample): the claim says that with `ds_fit = None` and fit
traces configured, the raw traces are rendered unaffected.  With the
configuration `exCfgDup`, whose raw list holds a trace value-equal to a fit
trace, no primitive at all is emitted (the raw-list occurrence is classified
as a fit trace and skipped), whereas the same call with the fit list emptied
renders that raw trace. -/
theorem c4_raw_trace_affected_cex :
    (create_plotly_figure exRaw1 exGrid1 [exCfgDup] none).map
        (fun f => f.primitives.length) = .ok 0 ∧
    (create_plotly_figure exRaw1 exGrid1 [{ exCfgDup with fit_traces := [] }] none).map
        (fun f => f.primitives.length) = .ok 1 ∧
    exCfgDup.traces = [exTraceT] ∧
    exCfgDup.fit_traces = [exTraceT] :=
  ⟨rfl, rfl, rfl, rfl⟩

/-- C4 (amended): with `ds_fit = None`, `create_plotly_figure` behaves
exactly as if the fit list were empty and every raw-list trace value-equal
to a fit trace were removed: all traces classified as fit traces (by value
equality) are silently skipped, no fit primitive is added, and the remaining
raw traces are rendered unaffected; `create_matplotlib_figure` produces the
same axes content as with the fit list emptied (all fit traces skipped, raw
traces unaffected; only the figure-level legend switch still counts fit
trace names). -/
theorem c4_no_fit_dataset_behaviour (raw : Dataset) (grid : QubitGrid)
    (cfg : PlotConfig) (rest : List PlotConfig) :
    create_plotly_figure raw grid (cfg :: rest) none
      = create_plotly_figure raw grid
          ({ cfg with
             traces := cfg.traces.filter (fun t => !decide (t ∈ cfg.fit_traces)),
             fit_traces := [] } :: rest) none ∧
    (create_matplotlib_figure raw grid (cfg :: rest) none).axes
      = (create_matplotlib_figure raw grid
          ({ cfg with fit_traces := [] } :: rest) none).axes := by
  constructor
  · have hcells := processCells_drop_fit cfg grid.n_cols raw grid.name_dicts 0
    cases hres : processCells
        { cfg with
          traces := cfg.traces.filter (fun t => !decide (t ∈ cfg.fit_traces)),
          fit_traces := [] } grid.n_cols raw none 0 grid.name_dicts with
    | error e =>
      rw [hres] at hcells
      simp only [create_plotly_figure, hcells, hres]
    | ok ps =>
      rw [hres] at hcells
      simp only [create_plotly_figure, hcells, hres]
  · exact mkAxesList_no_fit cfg raw grid.name_dicts 0

/-! ## C6 -/

/-- Properties of every built primitive: the legend group is the trace name
and the legend visibility flag is the comparison of the cell index to 0
(lines 106-107). -/
lemma makeTrace_props (i ncols : Nat) (s : Slice) (tc : TraceConfig)
    (cd : Option (List Val)) (p : Primitive)
    (h : makeTrace i ncols s tc cd = .ok p) :
    p.legendgroup = tc.name ∧ p.showlegend = (i == 0) ∧ p.name = tc.name := by
  simp only [makeTrace] at h
  split at h
  · split at h
    · exact Except.noConfusion h
    · split at h
      · injection h with h2
        subst h2
        exact ⟨rfl, rfl, rfl⟩
      · exact Except.noConfusion h
  · split at h
    · injection h with h2
      subst h2
      exact ⟨rfl, rfl, rfl⟩
    · exact Except.noConfusion h

/-- Every primitive emitted by the per-trace loop comes from `makeTrace` on
some resolved slice and custom data. -/
lemma processTrace_some (cfg : PlotConfig) (i ncols : Nat) (qraw : Slice)
    (qfit : Option Slice) (tc : TraceConfig) (p : Primitive)
    (h : processTrace cfg i ncols qraw qfit tc = .ok (some p)) :
    ∃ s cd, makeTrace i ncols s tc cd = .ok p := by
  simp only [processTrace] at h
  split at h
  · exact absurd h (by simp)
  · split at h
    · exact absurd h (by simp)
    · rename_i s hs
      split at h
      · split at h
        · split at h
          · exact Except.noConfusion h
          · rename_i p2 hmk
            injection h with h2
            injection h2 with h3
            subst h3
            exact ⟨s, none, hmk⟩
        · split at h
          · exact Except.noConfusion h
          · rename_i cd hcd
            split at h
            · exact Except.noConfusion h
            · rename_i p2 hmk
              injection h with h2
              injection h2 with h3
              subst h3
              exact ⟨s, some cd, hmk⟩
      · exact absurd h (by simp)

/-- C6 (confirmed): for every primitive emitted by the interactive builder,
the legend group equals the trace name and the legend visibility flag is
true exactly on the first grid cell (index 0); in the static builder, the
series label of a drawn raw or fit trace equals the trace name on the first
axes (index 0) and is the empty string on every other axes. -/
theorem c6_legend_first_cell_only :
    (∀ (cfg : PlotConfig) (i ncols : Nat) (qraw : Slice) (qfit : Option Slice)
       (tc : TraceConfig) (p : Primitive),
       processTrace cfg i ncols qraw qfit tc = .ok (some p) →
       p.legendgroup = tc.name ∧ (p.showlegend = true ↔ i = 0)) ∧
    (∀ (i : Nat) (q : Slice) (tc : TraceConfig) (s : MplSeries),
       rawSeriesFor i q tc = some s →
       s.label = if i = 0 then tc.name else "") ∧
    (∀ (i : Nat) (q : Slice) (tc : TraceConfig) (s : MplSeries),
       fitSeriesFor i q tc = some s →
       s.label = if i = 0 then tc.name else "") := by
  refine ⟨?_, ?_, ?_⟩
  · intro cfg i ncols qraw qfit tc p h
    obtain ⟨s, cd, hmk⟩ := processTrace_some cfg i ncols qraw qfit tc p h
    obtain ⟨hg, hs, _⟩ := makeTrace_props i ncols s tc cd p hmk
    refine ⟨hg, ?_⟩
    rw [hs]
    exact beq_iff_eq
  · intro i q tc s h
    simp only [rawSeriesFor] at h
    split at h
    · split at h
      · injection h with h2
        subst h2
        rfl
      · exact Option.noConfusion h
    · exact Option.noConfusion h
  · intro i q tc s h
    simp only [fitSeriesFor] at h
    split at h
    · split at h
      · injection h with h2
        subst h2
        rfl
      · exact Option.noConfusion h
    · exact Option.noConfusion h

/-- Concrete instantiation of `c6_legend_first_cell_only` at cell index 0
(primitive and raw series) and axes index 1 (fit series). -/
theorem c6_legend_first_cell_only_witness :
    (exPrimT.legendgroup = exTraceT.name ∧
      (exPrimT.showlegend = true ↔ (0 : Nat) = 0)) ∧
    exSerRawT.label = (if (0 : Nat) = 0 then exTraceT.name else "") ∧
    exSerFitT.label = (if (1 : Nat) = 0 then exTraceT.name else "") :=
  ⟨c6_legend_first_cell_only.1 exCfgCd 0 1 exSliceXY none exTraceT exPrimT rfl,
   c6_legend_first_cell_only.2.1 0 exSliceXY exTraceT exSerRawT rfl,
   c6_legend_first_cell_only.2.2 1 exSliceXY exTraceT exSerFitT rfl⟩

/-! ## C7 -/

/-- C7 (confirmed): for every fit series drawn by the static builder, the
linestyle is the fixed mapping solid to "-", dot to ":", dash to "--",
longdash to "-.", dashdot to "-." applied to the style's dash key, with
"--" when the key is absent or unrecognized, and the color is the style's
color key, defaulting to red. -/
theorem c7_fit_linestyle_and_color (i : Nat) (q : Slice) (tc : TraceConfig)
    (s : MplSeries) (h : fitSeriesFor i q tc = some s) :
    (tc.style.lookup "dash" = none → s.linestyle = "--") ∧
    (tc.style.lookup "dash" = some "solid" → s.linestyle = "-") ∧
    (tc.style.lookup "dash" = some "dot" → s.linestyle = ":") ∧
    (tc.style.lookup "dash" = some "dash" → s.linestyle = "--") ∧
    (tc.style.lookup "dash" = some "longdash" → s.linestyle = "-.") ∧
    (tc.style.lookup "dash" = some "dashdot" → s.linestyle = "-.") ∧
    (∀ d, tc.style.lookup "dash" = some d → linestyle_map.lookup d = none →
      s.linestyle = "--") ∧
    (∀ c, tc.style.lookup "color" = some c → s.color = some c) ∧
    (tc.style.lookup "color" = none → s.color = some "red") := by
  simp only [fitSeriesFor] at h
  split at h
  · split at h
    · injection h with h2
      subst h2
      refine ⟨fun hd => by rw [hd], fun hd => by rw [hd]; rfl,
        fun hd => by rw [hd]; rfl, fun hd => by rw [hd]; rfl,
        fun hd => by rw [hd]; rfl, fun hd => by rw [hd]; rfl,
        fun d hd hn => by simp only [hd]; rw [hn]; rfl,
        fun c hc => by rw [hc]; rfl,
        fun hc => by rw [hc]; rfl⟩
    · exact Option.noConfusion h
  · exact Option.noConfusion h

/-- Concrete instantiation of `c7_fit_linestyle_and_color`: the dash value
`dash` maps to linestyle `--` and the absent color key defaults to red. -/
theorem c7_fit_linestyle_and_color_witness :
    exSerFitDash.linestyle = "--" ∧ exSerFitDash.color = some "red" := by
  have h := c7_fit_linestyle_and_color 0 exSliceXY exTraceDash exSerFitDash rfl
  exact ⟨h.2.2.2.1 rfl, h.2.2.2.2.2.2.2.2 rfl⟩

/-! ## C8 -/

/-- C8 (confirmed): for every non-empty `plot_configs`, the figure returned
by `create_plotly_figure` has height exactly `350 * n_rows` and width
exactly `max 800 (350 * n_cols)` from the grid layout provider. -/
theorem c8_figure_dimensions (raw : Dataset) (grid : QubitGrid)
    (cfg : PlotConfig) (rest : List PlotConfig) (fit : Option Dataset)
    (fig : Figure)
    (h : create_plotly_figure raw grid (cfg :: rest) fit = .ok fig) :
    fig.height = some (350 * grid.n_rows) ∧
    fig.width = some (max 800 (350 * grid.n_cols)) := by
  cases hp : processCells cfg grid.n_cols raw fit 0 grid.name_dicts with
  | error e =>
    simp only [create_plotly_figure, hp] at h
    exact Except.noConfusion h
  | ok ps =>
    simp only [create_plotly_figure, hp, Except.ok.injEq] at h
    subst h
    exact ⟨rfl, rfl⟩

/-- Concrete instantiation of `c8_figure_dimensions`: a 2-row, 3-column grid
yields height 700 and width 1050. -/
theorem c8_figure_dimensions_witness :
    exFig23.height = some 700 ∧ exFig23.width = some 1050 := by
  have h := c8_figure_dimensions exRaw1 exGrid23 exCfgNoTraces [] none exFig23 rfl
  exact ⟨h.1, h.2⟩

/-! ## C10 -/

/-- The per-axes body treats an empty fit slice exactly like an absent fit
dataset: `if ds_qubit_fit:` on line 173 is false for a dataset with zero
data variables as well as for `None`. -/
lemma mkAxes_empty_fit (cfg : PlotConfig) (i : Nat) (qid : String)
    (qraw : Slice) :
    mkAxes cfg i qid qraw (some []) = mkAxes cfg i qid qraw none := by
  simp [mkAxes]

/-- Figure-level form: if every per-qubit fit slice is empty, the whole
axes list is the one produced with no fit dataset. -/
lemma mkAxesList_empty_fit (cfg : PlotConfig) (raw : Dataset)
    (fitds : Dataset) :
    ∀ qids : List String, (∀ q ∈ qids, fitds.sel q = []) →
      ∀ i, mkAxesList cfg raw (some fitds) i qids
        = mkAxesList cfg raw none i qids := by
  intro qids
  induction qids with
  | nil => intro _ i; rfl
  | cons qid rest ih =>
    intro h i
    simp only [mkAxesList, Option.map_some', Option.map_none']
    rw [h qid (by simp), mkAxes_empty_fit, ih (fun q hq => h q (by simp [hq])) (i + 1)]

/-- C10 (confirmed): in `create_matplotlib_figure`, fit traces are attempted
for a qubit only when its fit slice is non-empty: an empty (zero data
variables) per-qubit fit slice behaves exactly as if no fit dataset had been
supplied, for that axes and, when every slice is empty, for the whole
figure; raw traces are unaffected. -/
theorem c10_empty_fit_slice_skips_fit :
    (∀ (cfg : PlotConfig) (i : Nat) (qid : String) (qraw : Slice),
       mkAxes cfg i qid qraw (some []) = mkAxes cfg i qid qraw none) ∧
    (∀ (raw : Dataset) (grid : QubitGrid) (cfg : PlotConfig)
       (rest : List PlotConfig) (fitds : Dataset),
       (∀ q ∈ grid.name_dicts, fitds.sel q = []) →
       create_matplotlib_figure raw grid (cfg :: rest) (some fitds)
         = create_matplotlib_figure raw grid (cfg :: rest) none) := by
  constructor
  · exact mkAxes_empty_fit
  · intro raw grid cfg rest fitds h
    simp only [create_matplotlib_figure]
    rw [mkAxesList_empty_fit cfg raw fitds grid.name_dicts h 0]

/-- Concrete instantiation of `c10_empty_fit_slice_skips_fit`: an empty fit
dataset behaves like no fit dataset, and the raw trace is still drawn
(one series on the single axes). -/
theorem c10_empty_fit_slice_skips_fit_witness :
    create_matplotlib_figure exRaw1 exGrid1 [exCfgDup] (some [])
      = create_matplotlib_figure exRaw1 exGrid1 [exCfgDup] none ∧
    (create_matplotlib_figure exRaw1 exGrid1 [exCfgDup] (some [])).axes.map
        (fun a => a.series.length) = [1] :=
  ⟨c10_empty_fit_slice_skips_fit.2 exRaw1 exGrid1 exCfgDup [] []
      (fun q _ => rfl),
   by decide⟩
